import Mathlib

/-!
Shallow embedding of the core logic of app/api/main.py (an X/Twitter API
proxy): the rate-limit-retrying HTTP request executor `make_twitter_request`,
the bearer-token resolver `verify_token`, and the sentiment scoring
functions `analyze_sentiment` / `analyze_tweets_sentiment`.

Modelling conventions:
- The upstream HTTP behaviour is a function `Nat → UpstreamEvent` giving, for
  the i-th GET issued by one executor call, either a received response
  (status, optional retry-after header, parsed JSON body) or a
  connection-level failure with no response.  The url/headers/params
  arguments of `make_twitter_request` are fixed for the duration of one call
  and are folded into that behaviour function.
- Response bodies are modelled as already-parsed JSON values (the spec's
  data model treats an UpstreamResult as a parsed JSON-like structure).
- Python exceptions escaping the executor are modelled as `Except.error`:
  `ExecError.transportFailure` for a requests exception carrying no response
  (the bare `raise` on line 115), and `ExecError.valueError` for a Python
  `ValueError` (raised by `int()` on an unparsable retry-after header, or by
  `time.sleep` on a negative argument); `ValueError` is not a
  `requests.exceptions.RequestException`, so it is not caught by the
  executor's `except` clause and propagates.
- Observable side effects (requests issued, sleeps performed) are collected
  in order in a `List TraceEvent`.
- Numeric sentiment scores are modelled over `ℚ`.
-/

/-- JSON values, as produced by `response.json()`: the executor and handlers
pass bodies through without inspecting them. -/
inductive Json where
  | null
  | bool (b : Bool)
  | num (n : Int)
  | str (s : String)
  | arr (elems : List Json)
  | obj (fields : List (String × Json))

/-- What the upstream does in reaction to one GET issued by the executor:
either a response is received (with its status code, optional
retry-after header, and parsed JSON body), or the transport fails with no
response available at all (connection-level failure: `requests.get` raises
with `e.response is None`). -/
inductive UpstreamEvent where
  | resp (status : Nat) (retry_after : Option String) (body : Json)
  | noResponse

/-- Observable side effects of one executor call, in order: each GET issued,
and each `time.sleep(seconds)` performed. -/
inductive TraceEvent where
  | request
  | wait (seconds : Int)
deriving DecidableEq, Repr

/-- Exceptions that escape `make_twitter_request`: a transport failure with
no response (re-raised on line 115), or a Python `ValueError` (from `int()`
on an unparsable retry-after header, or from `time.sleep` on a negative
duration), which is not a `RequestException` and so is never caught. -/
inductive ExecError where
  | transportFailure
  | valueError
deriving DecidableEq, Repr

/-- ASCII decimal digit test, as used by Python `int()` on header strings. -/
def isAsciiDigit (c : Char) : Bool :=
  '0' ≤ c && c ≤ '9'

/-- Value of a nonempty ASCII digit string. -/
def digitsVal (l : List Char) : Nat :=
  l.foldl (fun a c => a * 10 + (c.toNat - 48)) 0

/-- Python `int(s)` conversion of a string: optional surrounding whitespace,
an optional sign, then a nonempty run of decimal digits; anything else
raises `ValueError`, modelled as `none`.  (Digit-group underscores and
non-ASCII digits, which Python also accepts, are omitted: no string in this
development uses them.) -/
def pyInt (s : String) : Option Int :=
  let t := ((s.toList.dropWhile Char.isWhitespace).reverse.dropWhile
    Char.isWhitespace).reverse
  match t with
  | [] => none
  | c :: rest =>
    if c = '-' then
      if !rest.isEmpty && rest.all isAsciiDigit then
        some (-(digitsVal rest : Int))
      else none
    else if c = '+' then
      if !rest.isEmpty && rest.all isAsciiDigit then
        some (digitsVal rest : Int)
      else none
    else
      if (c :: rest).all isAsciiDigit then
        some (digitsVal (c :: rest) : Int)
      else none

/-- Line 100: `int(response.headers.get('retry-after', 60))` — the missing
header defaults to the integer 60; a present header goes through `int()`,
where failure (`none`) models the `ValueError` it raises. -/
def retry_after_seconds (retry_after : Option String) : Option Int :=
  match retry_after with
  | none => some 60
  | some s => pyInt s

/-- Line 118: the synthesized payload returned once the retry budget is
exhausted by rate limits. -/
def exhausted_retries_payload : Json :=
  .obj [("errors", .arr [.obj [("detail",
    .str "Maximum retries exceeded due to rate limits")]])]

/-- The body of `for attempt in range(max_retries)` (lines 94-115), with
`fuel` the number of loop iterations left and `i` the index of the next
request.  One iteration: issue the GET; on a received 429, read the
retry-after header through `int()` (unparsable → `ValueError`), sleep that
long (negative → `ValueError` from `time.sleep`) and continue; on any other
received status return the parsed body (2xx via `response.json()`, other
4xx/5xx via `raise_for_status` and then `return e.response.json()` in the
`except` clause); on a connection failure with no response, re-raise.
When the loop exhausts its iterations, return the synthesized payload
(line 118).  The `except`-clause branch for a 429 attached to a raised
exception (lines 109-113) is unreachable: a received 429 is consumed by the
status check on line 99 before `raise_for_status`, so no modelled event
reaches it. -/
def mtr_loop (upstream : Nat → UpstreamEvent) :
    Nat → Nat → List TraceEvent × Except ExecError Json
  | _, 0 => ([], .ok exhausted_retries_payload)
  | i, fuel + 1 =>
    match upstream i with
    | .noResponse => ([.request], .error .transportFailure)
    | .resp status retry_after body =>
      if status = 429 then
        match retry_after_seconds retry_after with
        | none => ([.request], .error .valueError)
        | some w =>
          if w < 0 then ([.request], .error .valueError)
          else
            let r := mtr_loop upstream (i + 1) fuel
            (.request :: .wait w :: r.1, r.2)
      else ([.request], .ok body)

/-- `make_twitter_request(url, headers, params, max_retries=3)` (lines
92-118), as a function of the upstream behaviour (url/headers/params are
fixed per call and folded into `upstream`).  Returns the ordered trace of
side effects together with either the returned JSON value or the exception
that escaped. -/
def make_twitter_request (upstream : Nat → UpstreamEvent)
    (max_retries : Nat) : List TraceEvent × Except ExecError Json :=
  mtr_loop upstream 0 max_retries

/-- `verify_token` (lines 84-89): use the caller's bearer token if one was
supplied, is non-empty, and is not the placeholder "dummy-token"; otherwise
fall back to the configured default token. -/
def verify_token (credentials : Option String)
    (DEFAULT_BEARER_TOKEN : String) : String :=
  match credentials with
  | some c =>
    if c ≠ "" ∧ c ≠ "dummy-token" then c else DEFAULT_BEARER_TOKEN
  | none => DEFAULT_BEARER_TOKEN

/-- Raw output of `sia.polarity_scores(text)` (NLTK VADER): three component
fractions and a compound score.  The analyzer is external; it enters the
model as an oracle `String → PolarityScores`. -/
structure PolarityScores where
  neg : ℚ
  neu : ℚ
  pos : ℚ
  compound : ℚ
deriving DecidableEq, Repr

/-- The three-component score record used in responses. -/
structure Scores where
  negative : ℚ
  neutral : ℚ
  positive : ℚ
deriving DecidableEq, Repr

/-- Result of `analyze_sentiment` (lines 228-258). -/
structure SentimentResult where
  scores : Scores
  sentiment : String
  confidence : ℚ
deriving DecidableEq, Repr

/-- `analyze_sentiment(text)` (lines 228-258): while the model is not
loaded, the fixed neutral stub; once loaded, VADER component scores with the
label determined by the compound-score thresholds and confidence its
absolute value. -/
def analyze_sentiment (MODEL_LOADED : Bool)
    (sia : String → PolarityScores) (text : String) : SentimentResult :=
  if !MODEL_LOADED then
    { scores := { negative := 0, neutral := 1, positive := 0 }
      sentiment := "neutral"
      confidence := 1 }
  else
    let scores := sia text
    let sentiment :=
      if scores.compound ≥ 5 / 100 then "positive"
      else if scores.compound ≤ -(5 / 100) then "negative"
      else "neutral"
    { scores :=
        { negative := scores.neg, neutral := scores.neu, positive := scores.pos }
      sentiment := sentiment
      confidence := |scores.compound| }

/-- One element of the endpoint's `individual` list (lines 287-291). -/
structure IndividualResult where
  text : String
  sentiment : String
  scores : Scores
deriving DecidableEq, Repr

/-- The endpoint's `overall` object (lines 293-310). -/
structure OverallResult where
  sentiment : String
  scores : Scores
deriving DecidableEq, Repr

/-- Shape of the `/analyze/sentiment` response (SentimentResponse model). -/
structure SentimentResponse where
  overall : OverallResult
  individual : List IndividualResult
deriving DecidableEq, Repr

/-- Python `max(items, key=...)` over a nonempty sequence of labelled
values: keeps the earliest element whose value no later element strictly
exceeds. -/
def max_by_key (first : String × ℚ) (rest : List (String × ℚ)) : String :=
  (rest.foldl (fun best x => if x.2 > best.2 then x else best) first).1

/-- Line 305: `max(avg_scores, key=avg_scores.get)` — the dict iterates in
insertion order negative, neutral, positive, and `max` keeps the first
maximal entry. -/
def overall_sentiment_label (negative neutral positive : ℚ) : String :=
  max_by_key ("negative", negative)
    [("neutral", neutral), ("positive", positive)]

/-- `analyze_tweets_sentiment(request)` (lines 269-315): while the model is
not loaded, a fixed payload whose `individual` list is a single placeholder
entry; once loaded, one individual result per tweet in order, and an
overall object averaging each score component (guarded against the empty
list, which short-circuits to the neutral default before any division). -/
def analyze_tweets_sentiment (MODEL_LOADED : Bool)
    (sia : String → PolarityScores) (tweets : List String) :
    SentimentResponse :=
  if !MODEL_LOADED then
    { overall :=
        { sentiment := "neutral"
          scores := { negative := 0, neutral := 1, positive := 0 } }
      individual :=
        [{ text := "Model still loading..."
           sentiment := "neutral"
           scores := { negative := 0, neutral := 1, positive := 0 } }] }
  else
    let individual_results : List IndividualResult := tweets.map fun tweet =>
      let result := analyze_sentiment MODEL_LOADED sia tweet
      { text := tweet, sentiment := result.sentiment, scores := result.scores }
    let overall : OverallResult :=
      if individual_results.isEmpty then
        { sentiment := "neutral"
          scores := { negative := 0, neutral := 1, positive := 0 } }
      else
        let n : ℚ := individual_results.length
        let avg_scores : Scores :=
          { negative :=
              (individual_results.map fun r => r.scores.negative).sum / n
            neutral :=
              (individual_results.map fun r => r.scores.neutral).sum / n
            positive :=
              (individual_results.map fun r => r.scores.positive).sum / n }
        { sentiment :=
            overall_sentiment_label avg_scores.negative avg_scores.neutral
              avg_scores.positive
          scores := avg_scores }
    { overall := overall, individual := individual_results }

/-- Oracle standing in for VADER on inputs whose scores are irrelevant or
neutral: every polarity query answers neg 0, neu 1, pos 0, compound 0. -/
def neutralSia : String → PolarityScores :=
  fun _ => { neg := 0, neu := 1, pos := 0, compound := 0 }

/-- Exiting the loop with no iterations left returns the synthesized
exhausted-retries payload (line 118). -/
theorem mtr_loop_zero (upstream : Nat → UpstreamEvent) (i : Nat) :
    mtr_loop upstream i 0 = ([], .ok exhausted_retries_payload) := rfl

/-- One loop iteration on a received 429 whose retry-after resolves to a
nonnegative wait: the request and the sleep are recorded and the loop
continues with one fewer attempt. -/
theorem mtr_loop_rate_limited (upstream : Nat → UpstreamEvent)
    (i fuel : Nat) (ra : Option String) (b : Json) (w : Int)
    (h : upstream i = .resp 429 ra b)
    (hw : retry_after_seconds ra = some w) (hnn : 0 ≤ w) :
    mtr_loop upstream i (fuel + 1) =
      (.request :: .wait w :: (mtr_loop upstream (i + 1) fuel).1,
       (mtr_loop upstream (i + 1) fuel).2) := by
  simp [mtr_loop, h, hw, not_lt.mpr hnn]

/-- One loop iteration on a received non-429 status returns the parsed body
at once (2xx via line 106, other 4xx/5xx via line 114). -/
theorem mtr_loop_other_status (upstream : Nat → UpstreamEvent)
    (i fuel : Nat) (st : Nat) (ra : Option String) (b : Json)
    (h : upstream i = .resp st ra b) (hne : st ≠ 429) :
    mtr_loop upstream i (fuel + 1) = ([.request], .ok b) := by
  simp [mtr_loop, h, hne]

/-- One loop iteration on a connection-level failure with no response
re-raises (line 115). -/
theorem mtr_loop_no_response (upstream : Nat → UpstreamEvent)
    (i fuel : Nat) (h : upstream i = .noResponse) :
    mtr_loop upstream i (fuel + 1) =
      ([.request], .error .transportFailure) := by
  simp [mtr_loop, h]

/-- One loop iteration on a received 429 whose retry-after header does not
parse as an integer: `int()` raises `ValueError`, which escapes. -/
theorem mtr_loop_bad_retry_after (upstream : Nat → UpstreamEvent)
    (i fuel : Nat) (ra : Option String) (b : Json)
    (h : upstream i = .resp 429 ra b)
    (hw : retry_after_seconds ra = none) :
    mtr_loop upstream i (fuel + 1) = ([.request], .error .valueError) := by
  simp [mtr_loop, h, hw]

/-- If every 429 the upstream can produce carries a retry-after that is
absent or parses to a nonnegative integer, the loop never lets a
`ValueError` escape, whatever the remaining attempts and request index. -/
theorem mtr_loop_never_valueError (upstream : Nat → UpstreamEvent)
    (hgood : ∀ j ra b, upstream j = .resp 429 ra b →
      ∃ w, retry_after_seconds ra = some w ∧ 0 ≤ w) :
    ∀ fuel i, (mtr_loop upstream i fuel).2 ≠ .error .valueError := by
  intro fuel
  induction fuel with
  | zero =>
    intro i
    rw [mtr_loop_zero]
    simp
  | succ n ih =>
    intro i
    cases hev : upstream i with
    | noResponse =>
      rw [mtr_loop_no_response upstream i n hev]
      simp
    | resp st ra b =>
      by_cases h429 : st = 429
      · subst h429
        obtain ⟨w, hw, hnn⟩ := hgood i ra b hev
        rw [mtr_loop_rate_limited upstream i n ra b w hev hw hnn]
        exact ih (i + 1)
      · rw [mtr_loop_other_status upstream i n st ra b hev h429]
        simp

/-- C1: on three consecutive received 429s whose shared retry-after header
is an integer N (nonnegative), the executor with the default budget of 3
issues exactly three requests, sleeps N seconds before each retry (and once
more after the final 429, exactly as the source does), never issues a
fourth request, and returns the synthesized exhausted-retries payload. -/
theorem c1_three_consecutive_429s (upstream : Nat → UpstreamEvent)
    (s : String) (N : Int) (b0 b1 b2 : Json)
    (hs : pyInt s = some N) (hN : 0 ≤ N)
    (h0 : upstream 0 = .resp 429 (some s) b0)
    (h1 : upstream 1 = .resp 429 (some s) b1)
    (h2 : upstream 2 = .resp 429 (some s) b2) :
    make_twitter_request upstream 3 =
      ([.request, .wait N, .request, .wait N, .request, .wait N],
       .ok exhausted_retries_payload) := by
  have hra : retry_after_seconds (some s) = some N := hs
  have e2 : mtr_loop upstream 2 1 =
      ([.request, .wait N], .ok exhausted_retries_payload) := by
    simpa [mtr_loop_zero] using
      mtr_loop_rate_limited upstream 2 0 (some s) b2 N h2 hra hN
  have e1 : mtr_loop upstream 1 2 =
      ([.request, .wait N, .request, .wait N],
       .ok exhausted_retries_payload) := by
    simpa [e2] using
      mtr_loop_rate_limited upstream 1 1 (some s) b1 N h1 hra hN
  have e0 : mtr_loop upstream 0 3 =
      ([.request, .wait N, .request, .wait N, .request, .wait N],
       .ok exhausted_retries_payload) := by
    simpa [e1] using
      mtr_loop_rate_limited upstream 0 2 (some s) b0 N h0 hra hN
  exact e0

theorem c1_witness :
    make_twitter_request
      (fun _ => .resp 429 (some "7") (Json.obj [])) 3 =
      ([.request, .wait 7, .request, .wait 7, .request, .wait 7],
       .ok exhausted_retries_payload) :=
  c1_three_consecutive_429s _ "7" 7 (Json.obj []) (Json.obj []) (Json.obj [])
    (by decide) (by decide) rfl rfl rfl

/-- C2 counterexample: a 429 whose retry-after header is present but not an
integer ("N/A").  The claim says the executor defaults to a 60-second wait;
the code instead lets the `ValueError` raised by `int("N/A")` escape after
the single request, performing no wait at all. -/
theorem c2_counterexample :
    make_twitter_request
      (fun _ => .resp 429 (some "N/A") (Json.obj [])) 3 =
      ([.request], .error .valueError) := rfl

/-- C2 (amended): for a received 429, the wait before retrying is the
retry-after header interpreted as an integer when present and parsable
(shown here for nonnegative values, the only ones `time.sleep` accepts),
and defaults to 60 seconds only when the header is absent; when the header
is present but unparsable as an integer, no wait happens and a `ValueError`
escapes the executor. -/
theorem c2_retry_wait_policy (upstream : Nat → UpstreamEvent)
    (ra : Option String) (b : Json)
    (h : upstream 0 = .resp 429 ra b) :
    (ra = none →
      (make_twitter_request upstream 3).1.take 2 = [.request, .wait 60]) ∧
    (∀ s N, ra = some s → pyInt s = some N → 0 ≤ N →
      (make_twitter_request upstream 3).1.take 2 = [.request, .wait N]) ∧
    (∀ s, ra = some s → pyInt s = none →
      make_twitter_request upstream 3 = ([.request], .error .valueError)) := by
  refine ⟨?_, ?_, ?_⟩
  · intro hnone
    subst hnone
    have e := mtr_loop_rate_limited upstream 0 2 none b 60 h rfl (by norm_num)
    show (mtr_loop upstream 0 3).1.take 2 = _
    simp only [show (2 : Nat) + 1 = 3 from rfl] at e
    rw [e]
    rfl
  · intro s N hsome hparse hnn
    subst hsome
    have e := mtr_loop_rate_limited upstream 0 2 (some s) b N h hparse hnn
    show (mtr_loop upstream 0 3).1.take 2 = _
    simp only [show (2 : Nat) + 1 = 3 from rfl] at e
    rw [e]
    rfl
  · intro s hsome hparse
    subst hsome
    have e := mtr_loop_bad_retry_after upstream 0 2 (some s) b h hparse
    show mtr_loop upstream 0 3 = _
    simp only [show (2 : Nat) + 1 = 3 from rfl] at e
    rw [e]

theorem c2_witness :
    (make_twitter_request
      (fun _ => .resp 429 (some "30") (Json.obj [])) 3).1.take 2 =
      [.request, .wait 30] :=
  (c2_retry_wait_policy _ (some "30") (Json.obj []) rfl).2.1 "30" 30 rfl
    (by decide) (by decide)

/-- C3 counterexample: a 429 with retry-after header "-5".  A response is
available (this is not a transport failure), yet the executor raises past
its boundary: `int("-5")` succeeds and `time.sleep(-5)` raises
`ValueError`, which is not a `RequestException` and escapes. -/
theorem c3_counterexample :
    make_twitter_request
      (fun _ => .resp 429 (some "-5") (Json.obj [])) 3 =
      ([.request], .error .valueError) := rfl

/-- C3 (amended): provided every 429 the upstream produces carries a
retry-after header that is absent or parses to a nonnegative integer, the
executor never raises a `ValueError` past its boundary — its outcome is a
well-formed JSON result or the distinct transport-failure propagation.
Without that proviso the claim fails: an unparsable or negative retry-after
lets a `ValueError` escape even though a response was available. -/
theorem c3_exceptions_limited_to_transport (upstream : Nat → UpstreamEvent)
    (hgood : ∀ j ra b, upstream j = .resp 429 ra b →
      ∃ w, retry_after_seconds ra = some w ∧ 0 ≤ w) :
    (make_twitter_request upstream 3).2 ≠ .error .valueError :=
  mtr_loop_never_valueError upstream hgood 3 0

theorem c3_witness :
    (make_twitter_request
      (fun _ => .resp 200 none (Json.str "ok")) 3).2 ≠
      .error .valueError :=
  c3_exceptions_limited_to_transport _
    (by intro j ra b h; simp at h)

/-- C4: a non-429 4xx/5xx response with a (parseable, per the model) JSON
body on the first attempt makes the executor return that body unmodified at
once — one request, no retry, no wait. -/
theorem c4_non429_error_passthrough (upstream : Nat → UpstreamEvent)
    (st : Nat) (ra : Option String) (b : Json)
    (h : upstream 0 = .resp st ra b) (_herr : 400 ≤ st) (hne : st ≠ 429) :
    make_twitter_request upstream 3 = ([.request], .ok b) := by
  have e := mtr_loop_other_status upstream 0 2 st ra b h hne
  simpa [make_twitter_request] using e

theorem c4_witness :
    make_twitter_request
      (fun _ => .resp 404 none (Json.obj [("errors", Json.arr [])])) 3 =
      ([.request], .ok (Json.obj [("errors", Json.arr [])])) :=
  c4_non429_error_passthrough _ 404 none _ rfl (by norm_num) (by norm_num)

/-- C5 counterexample: a single 429 whose retry-after header is "N/A"
followed by a 200.  The claim says the executor returns the 200 body after
two requests; the code instead lets the `ValueError` raised by
`int("N/A")` escape after the first request, never issuing the second and
never returning the 2xx body. -/
theorem c5_counterexample :
    make_twitter_request
      (fun i => if i = 0 then .resp 429 (some "N/A") (Json.obj [])
                else .resp 200 none (Json.str "ok")) 3 =
      ([.request], .error .valueError) := rfl

/-- C5 (amended): a single 429 whose retry-after resolves to a nonnegative
wait w (the parsed header value, or 60 by default when the header is
absent) followed by a 2xx makes the executor issue exactly two requests,
sleep once for w seconds in between, and return the 2xx response's parsed
body; without that proviso on the header the claim fails, since an
unparsable or negative retry-after raises `ValueError` after the first
request. -/
theorem c5_single_429_then_2xx (upstream : Nat → UpstreamEvent)
    (ra : Option String) (b0 : Json) (w : Int)
    (st2 : Nat) (ra2 : Option String) (b1 : Json)
    (h0 : upstream 0 = .resp 429 ra b0)
    (hw : retry_after_seconds ra = some w) (hnn : 0 ≤ w)
    (h1 : upstream 1 = .resp st2 ra2 b1)
    (hlo : 200 ≤ st2) (hhi : st2 < 300) :
    make_twitter_request upstream 3 =
      ([.request, .wait w, .request], .ok b1) := by
  have hne : st2 ≠ 429 := by omega
  have e1 : mtr_loop upstream 1 2 = ([.request], .ok b1) := by
    simpa using mtr_loop_other_status upstream 1 1 st2 ra2 b1 h1 hne
  have e0 := mtr_loop_rate_limited upstream 0 2 ra b0 w h0 hw hnn
  simpa [make_twitter_request, e1] using e0

theorem c5_witness :
    make_twitter_request
      (fun i => if i = 0 then .resp 429 none (Json.obj [])
                else .resp 200 none (Json.str "ok")) 3 =
      ([.request, .wait 60, .request], .ok (Json.str "ok")) :=
  c5_single_429_then_2xx _ none (Json.obj []) 60 200 none (Json.str "ok")
    rfl rfl (by norm_num) rfl (by norm_num) (by norm_num)

/-- The label picked on line 305 carries the maximum of the three averaged
components: `max(avg_scores, key=avg_scores.get)` iterates the dict in
insertion order negative, neutral, positive and keeps the first entry no
later entry strictly exceeds. -/
theorem overall_sentiment_label_spec (n u p : ℚ) :
    (overall_sentiment_label n u p = "negative" ∧ u ≤ n ∧ p ≤ n) ∨
    (overall_sentiment_label n u p = "neutral" ∧ n ≤ u ∧ p ≤ u) ∨
    (overall_sentiment_label n u p = "positive" ∧ n ≤ p ∧ u ≤ p) := by
  unfold overall_sentiment_label max_by_key
  by_cases h1 : u > n
  · by_cases h2 : p > u
    · right; right
      refine ⟨?_, le_of_lt (lt_trans h1 h2), le_of_lt h2⟩
      simp [List.foldl, h1, h2]
    · right; left
      refine ⟨?_, le_of_lt h1, not_lt.mp h2⟩
      simp [List.foldl, h1, h2]
  · by_cases h2 : p > n
    · right; right
      refine ⟨?_, le_of_lt h2, le_trans (not_lt.mp h1) (le_of_lt h2)⟩
      simp [List.foldl, h1, h2]
    · left
      refine ⟨?_, not_lt.mp h1, not_lt.mp h2⟩
      simp [List.foldl, h1, h2]

/-- C6 counterexample: while the model is not loaded, the batch endpoint
returns a single fixed placeholder individual entry for the two-element
input ["a", "b"], not one SentimentResult per input text. -/
theorem c6_counterexample :
    (analyze_tweets_sentiment false neutralSia ["a", "b"]).individual =
      [{ text := "Model still loading...", sentiment := "neutral"
         scores := { negative := 0, neutral := 1, positive := 0 } }] := rfl

/-- C6 (amended to the loaded model state, nonempty input): the batch
operation returns one individual result per input text in input order, an
overall whose three scores are the arithmetic means of the corresponding
components across the individual results, and an overall sentiment label
whose averaged component is maximal among the three. -/
theorem c6_batch_individual_and_overall (sia : String → PolarityScores)
    (tweets : List String) (hne : tweets ≠ []) :
    (analyze_tweets_sentiment true sia tweets).individual =
      tweets.map (fun tweet =>
        { text := tweet
          sentiment := (analyze_sentiment true sia tweet).sentiment
          scores := (analyze_sentiment true sia tweet).scores }) ∧
    (analyze_tweets_sentiment true sia tweets).overall.scores =
      { negative :=
          (tweets.map fun t =>
            (analyze_sentiment true sia t).scores.negative).sum /
            tweets.length
        neutral :=
          (tweets.map fun t =>
            (analyze_sentiment true sia t).scores.neutral).sum /
            tweets.length
        positive :=
          (tweets.map fun t =>
            (analyze_sentiment true sia t).scores.positive).sum /
            tweets.length } ∧
    (∀ an au ap,
      (analyze_tweets_sentiment true sia tweets).overall.scores =
        { negative := an, neutral := au, positive := ap } →
      ((analyze_tweets_sentiment true sia tweets).overall.sentiment =
          "negative" ∧ au ≤ an ∧ ap ≤ an) ∨
      ((analyze_tweets_sentiment true sia tweets).overall.sentiment =
          "neutral" ∧ an ≤ au ∧ ap ≤ au) ∨
      ((analyze_tweets_sentiment true sia tweets).overall.sentiment =
          "positive" ∧ an ≤ ap ∧ au ≤ ap)) := by
  obtain ⟨t, ts, rfl⟩ : ∃ t ts, tweets = t :: ts := by
    cases tweets with
    | nil => exact absurd rfl hne
    | cons t ts => exact ⟨t, ts, rfl⟩
  refine ⟨rfl, ?_, ?_⟩
  · simp [analyze_tweets_sentiment, List.map_map, Function.comp_def]
  · intro an au ap hsc
    have hlabel : (analyze_tweets_sentiment true sia (t :: ts)).overall.sentiment =
        overall_sentiment_label
          (analyze_tweets_sentiment true sia (t :: ts)).overall.scores.negative
          (analyze_tweets_sentiment true sia (t :: ts)).overall.scores.neutral
          (analyze_tweets_sentiment true sia (t :: ts)).overall.scores.positive :=
      rfl
    rw [hsc] at hlabel
    rcases overall_sentiment_label_spec an au ap with
      ⟨hl, ha, hb⟩ | ⟨hl, ha, hb⟩ | ⟨hl, ha, hb⟩
    · exact Or.inl ⟨hlabel.trans hl, ha, hb⟩
    · exact Or.inr (Or.inl ⟨hlabel.trans hl, ha, hb⟩)
    · exact Or.inr (Or.inr ⟨hlabel.trans hl, ha, hb⟩)

theorem c6_witness :
    (analyze_tweets_sentiment true neutralSia ["x"]).individual =
      [{ text := "x", sentiment := "neutral"
         scores := { negative := 0, neutral := 1, positive := 0 } }] := by
  rw [(c6_batch_individual_and_overall neutralSia ["x"] (by simp)).1]
  norm_num [analyze_sentiment, neutralSia]

/-- C7: on the empty input list the batch operation's overall is the
neutral default with scores negative 0, neutral 1, positive 0, in either
model state; the loaded path short-circuits before any division by the
(zero) list length. -/
theorem c7_empty_input_neutral_default (MODEL_LOADED : Bool)
    (sia : String → PolarityScores) :
    (analyze_tweets_sentiment MODEL_LOADED sia []).overall =
      { sentiment := "neutral"
        scores := { negative := 0, neutral := 1, positive := 0 } } := by
  cases MODEL_LOADED <;> rfl

/-- C8: the token resolver returns the caller's token verbatim when it is
non-empty and not the literal "dummy-token", and the configured default
token when the caller supplied the empty string or "dummy-token". -/
theorem c8_token_resolution (c d : String) :
    (c ≠ "" → c ≠ "dummy-token" → verify_token (some c) d = c) ∧
    verify_token (some "") d = d ∧
    verify_token (some "dummy-token") d = d := by
  refine ⟨?_, rfl, rfl⟩
  intro h1 h2
  simp [verify_token, h1, h2]

theorem c8_witness : verify_token (some "abc") "default-token" = "abc" :=
  (c8_token_resolution "abc" "default-token").1 (by decide) (by decide)

/-- C9: while the model is not loaded, `analyze_sentiment` returns the
fixed neutral stub (scores negative 0, neutral 1, positive 0, sentiment
"neutral", confidence 1.0) regardless of the input text or of what the
analyzer would have answered. -/
theorem c9_not_loaded_stub (sia : String → PolarityScores) (text : String) :
    analyze_sentiment false sia text =
      { scores := { negative := 0, neutral := 1, positive := 0 }
        sentiment := "neutral"
        confidence := 1 } := rfl

/-- C10: when averaged components tie for the maximum, the overall label is
the first tied component in the fixed insertion order negative, neutral,
positive: the label is "negative" exactly when negative attains the
maximum, "neutral" when negative does not but neutral does, and "positive"
only when positive alone attains it. -/
theorem c10_overall_tie_break (negative neutral positive : ℚ) :
    (negative = max negative (max neutral positive) →
      overall_sentiment_label negative neutral positive = "negative") ∧
    (negative < max negative (max neutral positive) →
     neutral = max negative (max neutral positive) →
      overall_sentiment_label negative neutral positive = "neutral") ∧
    (negative < max negative (max neutral positive) →
     neutral < max negative (max neutral positive) →
      overall_sentiment_label negative neutral positive = "positive") := by
  refine ⟨?_, ?_, ?_⟩
  · intro h
    have hu : neutral ≤ negative := by
      rw [h]
      exact le_trans (le_max_left _ _) (le_max_right _ _)
    have hp : positive ≤ negative := by
      rw [h]
      exact le_trans (le_max_right _ _) (le_max_right _ _)
    unfold overall_sentiment_label max_by_key
    simp [List.foldl, not_lt.mpr hu, not_lt.mpr hp]
  · intro h1 h2
    have hnu : negative < neutral := by
      rw [h2]
      exact h1
    have hpu : positive ≤ neutral := by
      rw [h2]
      exact le_trans (le_max_right _ _) (le_max_right _ _)
    unfold overall_sentiment_label max_by_key
    simp [List.foldl, hnu, not_lt.mpr hpu]
  · intro h1 h2
    have hMp : max negative (max neutral positive) = positive := by
      rcases max_choice negative (max neutral positive) with h | h
      · rw [h] at h1
        exact absurd h1 (lt_irrefl _)
      · rcases max_choice neutral positive with h' | h'
        · rw [h, h'] at h2
          exact absurd h2 (lt_irrefl _)
        · rw [h, h']
    have hnp : negative < positive := by
      rw [← hMp]
      exact h1
    have hup : neutral < positive := by
      rw [← hMp]
      exact h2
    unfold overall_sentiment_label max_by_key
    by_cases hun : neutral > negative <;>
      simp [List.foldl, hun, hnp, hup]

theorem c10_witness : overall_sentiment_label 0 1 1 = "neutral" :=
  (c10_overall_tie_break 0 1 1).2.1 (by norm_num [max_def])
    (by norm_num [max_def])
